import Mathlib

/-!
Shallow embedding of `src/app.py` (a Flask service that aggregates playlist
analytics from a tabular store) and proofs about the claims on its behavior.

The store (BigQuery) is external: each query's outcome is a parameter of the
embedding (`QueryOutcome`), either an error raised by the store client or a
list of returned rows.  JSON / row scalar values are modelled by `Val`.
-/

namespace GetStreamsApi

/-- A JSON-like scalar/structured value, as stored in rows and responses
(strings, numbers, null, lists, dicts).  Mirrors the Python value universe
the program actually manipulates. -/
inductive Val where
  | s : String → Val
  | i : Int → Val
  | null : Val
  | list : List Val → Val
  | dict : List (String × Val) → Val
deriving Repr

/-- A row / dict: mapping from column name to value (`SourceRow` in the spec).
Association list; lookup takes the first matching key, as keys are unique in
rows produced by the store. -/
abbrev Row := List (String × Val)

/-- `d.get(k)` returning `Option`: first entry with key `k`, if any. -/
def rowFind (r : Row) (k : String) : Option Val :=
  (r.find? (fun kv => kv.1 == k)).map (fun kv => kv.2)

/-- Python `d.get(k, default)`. -/
def rowGet (r : Row) (k : String) (d : Val) : Val :=
  (rowFind r k).getD d

/-- The keys of a result dict, in order. -/
def keysOf (r : Row) : List String :=
  r.map (fun kv => kv.1)

/-! ## Identifier extractor

`app.py` line 95:
`playlist_id = playlist_url.split('?')[0].replace('https://open.spotify.com/playlist/', '')`

`split('?')[0]` keeps the characters before the first `'?'` (the whole string
when there is none), i.e. `takeWhile (· != '?')`.  Python's `str.replace(p, '')`
deletes every occurrence of `p`, scanning left to right, non-overlapping.
We model the deletion with structural recursion on a fuel argument (one unit
of fuel per consumed character suffices), so that it reduces by `rfl`/`decide`
on concrete inputs. -/

/-- One step per character: if the pattern `p` starts here, skip `p.length`
characters and continue after the match; otherwise keep the character.
Assumes `p ≠ []` (the caller guards); fuel `s.length` is always enough. -/
def pyReplaceDelAux (p : List Char) : Nat → List Char → List Char
  | _, [] => []
  | 0, l => l
  | fuel + 1, c :: rest =>
    if p.isPrefixOf (c :: rest) then
      pyReplaceDelAux p fuel (List.drop (p.length - 1) rest)
    else
      c :: pyReplaceDelAux p fuel rest

/-- Python `s.replace(p, '')` for non-empty `p` (for empty `p` Python would
return `s` unchanged when the replacement is also empty). -/
def pyReplaceDel (p s : List Char) : List Char :=
  if p.isEmpty then s else pyReplaceDelAux p s.length s

/-- The literal URL marker removed by the extractor. -/
def playlistMarker : String := "https://open.spotify.com/playlist/"

/-- The identifier extractor of `app.py` line 95. -/
def extract (playlist_url : String) : String :=
  String.mk (pyReplaceDel playlistMarker.toList
    (playlist_url.toList.takeWhile (fun c => c != '?')))

/-! ## Store model and fetch helpers

The two queries (`fetch_data` lines 41-64, `fetch_data2` lines 66-85) go to
the external store.  We model each query's outcome as a parameter: either the
store client raised (`err`) or it returned a list of rows (`rows`).  The SQL
text is fixed up to `(dataset, table, playlist_id)`, so the trace of issued
queries records those triples; a query reaches the store only when the module
level `client` was initialized (otherwise `client.query` raises an
`AttributeError` before any network call, caught by the `except` clause). -/

/-- Outcome of a single store query for the identifier at hand. -/
inductive QueryOutcome where
  | err : QueryOutcome
  | rows : List Row → QueryOutcome

/-- A record of one issued store query: (dataset, table, playlist_id). -/
abbrev QueryTrace := List (String × String × String)

/-- `fetch_data` (app.py lines 41-64): runs the metrics query, returns
`data[0] if data else None`; any exception (including the `AttributeError`
when `client is None`) is caught and yields `None`. -/
def fetch_data (clientPresent : Bool) (outcome : QueryOutcome)
    (dataset table playlist_id : String) : Option Row × QueryTrace :=
  if clientPresent then
    match outcome with
    | .err => (none, [(dataset, table, playlist_id)])
    | .rows rs =>
      (match rs with
       | [] => none
       | r :: _ => some r, [(dataset, table, playlist_id)])
  else (none, [])

/-- The three possible Python return values of `fetch_data2`:
`None` (exception path), `[]` (zero links), or the dict
`{'ad link': links}` with `links` non-empty. -/
inductive Fetch2Val where
  | none2 : Fetch2Val
  | emptyList : Fetch2Val
  | adDict : List Val → Fetch2Val

/-- The list comprehension `[x['ad link'] for x in results]`: `none` when a
row lacks the key (Python `KeyError`, caught by `fetch_data2`'s `except`). -/
def getAdLinks : List Row → Option (List Val)
  | [] => some []
  | r :: rs =>
    match rowFind r "ad link" with
    | none => none
    | some v =>
      match getAdLinks rs with
      | none => none
      | some vs => some (v :: vs)

/-- `fetch_data2` (app.py lines 66-85): runs the ads query and returns
`{'ad link': links}` if `len(links) > 0` else `[]`; any exception yields
`None`. -/
def fetch_data2 (clientPresent : Bool) (outcome : QueryOutcome)
    (dataset table playlist_id : String) : Fetch2Val × QueryTrace :=
  if clientPresent then
    match outcome with
    | .err => (.none2, [(dataset, table, playlist_id)])
    | .rows rs =>
      (match getAdLinks rs with
       | none => .none2
       | some links =>
         if links.length > 0 then .adDict links else .emptyList,
       [(dataset, table, playlist_id)])
  else (.none2, [])

/-- Caller-side wrapping at app.py line 113:
`results[table_name] = data if data else {"error": "No data found"}` —
`None` and the empty dict are both falsy. -/
def metricsEntry (data : Option Row) : Row :=
  match data with
  | some r => if r.isEmpty then [("error", Val.s "No data found")] else r
  | none => [("error", Val.s "No data found")]

/-- Caller-side wrapping at app.py line 133 for the ads fetch: the dict
`{'ad link': links}` is truthy, `[]` and `None` are falsy. -/
def adsEntry : Fetch2Val → Row
  | .adDict links => [("ad link", Val.list links)]
  | _ => [("error", Val.s "No data found")]

/-- `results.get(table, {})` over the per-table results mapping. -/
def resultsGet (results : List (String × Row)) (table : String) : Row :=
  ((results.find? (fun kv => kv.1 == table)).map (fun kv => kv.2)).getD []

/-- The ten tier-bucket columns read into `lssst` (app.py lines 154-155). -/
def tierCols : List String :=
  ["1_isitagoodplaylist", "2-10_isitagoodplaylist", "11-20_isitagoodplaylist",
   "21-50_isitagoodplaylist", "50+_isitagoodplaylist", "estimated_1st",
   "estimated_2_10", "estimated_11_20", "estimated_21_50", "estimated_+50"]

/-- `get_playlist_ids` (app.py lines 90-165).  Each thread pool runs exactly
one query (`tables` has one element in both blocks), so the parallel
dispatch degenerates to the two sequential fetches below; `future.result()`
cannot raise because both fetch helpers catch every exception internally.
Returns the response dict together with the trace of issued store queries. -/
def get_playlist_ids (clientPresent : Bool) (mo ao : QueryOutcome)
    (playlist_url : String) : Row × QueryTrace :=
  let playlist_id := extract playlist_url
  let mfetch := fetch_data clientPresent mo "global_stream_tracker" "merged_may_all" playlist_id
  let results : List (String × Row) := [("merged_may_all", metricsEntry mfetch.1)]
  let afetch := fetch_data2 clientPresent ao "ads_data" "ads_data" playlist_id
  let results2 : List (String × Row) := [("ads_data", adsEntry afetch.1)]
  let m := resultsGet results "merged_may_all"
  let track_count := rowGet m "Track Count" (Val.s "?")
  let est0 := rowGet m "total_stream_estimate" (Val.s "?")
  let followers := rowGet m "Followers" (Val.s "?")
  let curator := rowGet m "Curator" (Val.s "?")
  let playlist_name := rowGet m "Playlist" (Val.s "?")
  let est1 := rowGet m "streams_april" (Val.s "?")
  let est2 := rowGet m "streams_march" (Val.s "?")
  let est3 := rowGet m "streams_feb" (Val.s "?")
  let est4 := rowGet m "streams_jan" (Val.s "?")
  -- `ads_links = results2.get("ads_data", {}).get("ad link", [])`; the value
  -- stored under "ad link" is always a list (see `adsEntry`), so the
  -- catch-all branch of the match is never taken.
  let ads_links0 :=
    match rowGet (resultsGet results2 "ads_data") "ad link" (Val.list []) with
    | Val.list vs => vs
    | _ => []
  -- `for x in range(0, 5 - len(ads_links)): ads_links.append("")` — Python's
  -- `range` is empty when the bound is non-positive, like Nat subtraction.
  let ads_links := ads_links0 ++ List.replicate (5 - ads_links0.length) (Val.s "")
  let lssst := tierCols.map (fun col => rowGet m col (Val.s "?"))
  ([("track_count", track_count),
    ("estimates", Val.list [est0, est1, est2, est3, est4]),
    ("lssst", Val.list lssst),
    ("Followers", followers),
    ("curator", curator),
    ("playlist_name", playlist_name),
    ("ads_links", Val.list ads_links)],
   mfetch.2 ++ afetch.2)

/-- The request handler `api_get_playlist_ids` (app.py lines 171-182).
The body is `none` when `request.get_json()` yielded `None`, otherwise the
decoded JSON dict.  Returns (HTTP status code, response envelope, trace of
issued store queries).  A non-string `playlist_url` makes
`playlist_url.split` raise `AttributeError`, caught by the outer handler and
reported as a 500 with `str(e)` as the message (modelled by a fixed message
string, since no claim depends on its text). -/
def api_get_playlist_ids (clientPresent : Bool) (mo ao : QueryOutcome)
    (body : Option Row) : Nat × Row × QueryTrace :=
  match body with
  | none =>
    (400, [("status", Val.s "error"),
           ("message", Val.s "Missing 'playlist_url' in request.")], [])
  | some d =>
    if d.isEmpty || (rowFind d "playlist_url").isNone then
      (400, [("status", Val.s "error"),
             ("message", Val.s "Missing 'playlist_url' in request.")], [])
    else
      match rowFind d "playlist_url" with
      | some (Val.s playlist_url) =>
        let res := get_playlist_ids clientPresent mo ao playlist_url
        (200, [("status", Val.s "success"), ("data", Val.dict res.1)], res.2)
      | _ =>
        (500, [("status", Val.s "error"), ("message", Val.s "internal error")], [])

/-! ## Predicates about the extractor -/

/-- Whether `p` occurs as a contiguous substring of `s` (for non-empty `p`;
`hasOccur [] s = true` by the `isEmpty` base case). -/
def hasOccur (p : List Char) : List Char → Bool
  | [] => p.isEmpty
  | c :: rest => p.isPrefixOf (c :: rest) || hasOccur p rest

/-- Fueled test of "`s` is a concatenation of zero or more copies of `p`";
for non-empty `p`, fuel `s.length` is always sufficient. -/
def isRepOfAux (p : List Char) : Nat → List Char → Bool
  | _, [] => true
  | 0, _ => false
  | fuel + 1, c :: rest =>
    p.isPrefixOf (c :: rest) && isRepOfAux p fuel (List.drop (p.length - 1) rest)

/-- Whether `s` is a concatenation of zero or more copies of `p`.  Exactly
these strings are deleted to nothing by `pyReplaceDel p`. -/
def isRepOf (p s : List Char) : Bool :=
  if p.isEmpty then s.isEmpty else isRepOfAux p s.length s

/-- `Modelled from the spec:` the extractor algorithm as the spec words it
("split the input on the first `?` character and keep the left segment;
remove the literal prefix `https://open.spotify.com/playlist/` if present"),
i.e. a single removal of a *leading* occurrence — for comparison against
`extract`, whose Python `str.replace` deletes every occurrence anywhere. -/
def extract_specAlg (playlist_url : String) : String :=
  let left := playlist_url.toList.takeWhile (fun c => c != '?')
  if playlistMarker.toList.isPrefixOf left then
    String.mk (List.drop playlistMarker.toList.length left)
  else
    String.mk left

/-! ## Lemmas about `pyReplaceDel` -/

/-- When `p` does not occur in `s`, the deletion pass leaves `s` unchanged,
whatever the fuel. -/
theorem pyReplaceDelAux_of_not_occur {p : List Char} :
    ∀ {s : List Char}, hasOccur p s = false → ∀ fuel, pyReplaceDelAux p fuel s = s := by
  intro s
  induction s with
  | nil => intro _ fuel; cases fuel <;> rfl
  | cons c rest ih =>
    intro h fuel
    rw [hasOccur, Bool.or_eq_false_iff] at h
    obtain ⟨h1, h2⟩ := h
    cases fuel with
    | zero => rfl
    | succ fuel => simp [pyReplaceDelAux, h1, ih h2]

/-- When `p` does not occur in `s`, `pyReplaceDel p s = s`. -/
theorem pyReplaceDel_of_not_occur {p s : List Char} (h : hasOccur p s = false) :
    pyReplaceDel p s = s := by
  unfold pyReplaceDel
  split
  · rfl
  · exact pyReplaceDelAux_of_not_occur h _

/-- Deletion introduces no new characters. -/
theorem mem_of_mem_pyReplaceDelAux {p : List Char} :
    ∀ (fuel : Nat) (s : List Char) (a : Char), a ∈ pyReplaceDelAux p fuel s → a ∈ s := by
  intro fuel
  induction fuel with
  | zero =>
    intro s a h
    cases s with
    | nil => simp [pyReplaceDelAux] at h
    | cons c rest => simpa [pyReplaceDelAux] using h
  | succ fuel ih =>
    intro s a h
    cases s with
    | nil => simp [pyReplaceDelAux] at h
    | cons c rest =>
      rw [pyReplaceDelAux] at h
      by_cases hp : p.isPrefixOf (c :: rest) = true
      · rw [if_pos hp] at h
        exact List.mem_cons_of_mem c (List.mem_of_mem_drop (ih _ _ h))
      · rw [if_neg hp] at h
        rcases List.mem_cons.mp h with h | h
        · exact h ▸ List.mem_cons_self a rest
        · exact List.mem_cons_of_mem c (ih _ _ h)

/-- Deletion introduces no new characters (top level). -/
theorem mem_of_mem_pyReplaceDel {p s : List Char} {a : Char}
    (h : a ∈ pyReplaceDel p s) : a ∈ s := by
  unfold pyReplaceDel at h
  split at h
  · exact h
  · exact mem_of_mem_pyReplaceDelAux _ _ _ h

/-- If the deletion pass erases all of `s`, then `s` was a concatenation of
copies of `p` (fueled version). -/
theorem isRepOfAux_of_pyReplaceDelAux_nil {p : List Char} :
    ∀ (fuel : Nat) (s : List Char), pyReplaceDelAux p fuel s = [] →
      isRepOfAux p fuel s = true := by
  intro fuel
  induction fuel with
  | zero =>
    intro s h
    cases s with
    | nil => rfl
    | cons c rest => exact absurd h (by simp [pyReplaceDelAux])
  | succ fuel ih =>
    intro s h
    cases s with
    | nil => rfl
    | cons c rest =>
      rw [pyReplaceDelAux] at h
      by_cases hp : p.isPrefixOf (c :: rest) = true
      · rw [if_pos hp] at h
        rw [isRepOfAux]
        simp [hp, ih _ h]
      · rw [if_neg hp] at h
        exact absurd h (by simp)

/-- If `pyReplaceDel p s` is empty (for non-empty `p`), then `s` is a
concatenation of copies of `p`. -/
theorem isRepOf_of_pyReplaceDel_nil {p s : List Char} (hp : p.isEmpty = false)
    (h : pyReplaceDel p s = []) : isRepOf p s = true := by
  unfold pyReplaceDel at h
  unfold isRepOf
  rw [hp] at h ⊢
  simp only [Bool.false_eq_true, if_false] at h ⊢
  exact isRepOfAux_of_pyReplaceDelAux_nil _ _ h

/-- Every character of `extract u` is a character of `u` that is not `'?'`;
in particular `extract u` contains no `'?'`. -/
theorem extract_no_questionmark {u : String} {a : Char}
    (h : a ∈ (extract u).toList) : (a != '?') = true := by
  unfold extract at h
  have h' : a ∈ pyReplaceDel playlistMarker.toList
      (u.toList.takeWhile (fun c => c != '?')) := h
  have h2 : a ∈ List.takeWhile (fun c => c != '?') u.toList :=
    mem_of_mem_pyReplaceDel h'
  have h3 := List.mem_takeWhile_imp h2
  simpa using h3

/-- `String.mk (s.toList) = s`. -/
theorem stringMk_toList (s : String) : String.mk s.toList = s := rfl

/-! ## Accessors on the result dict -/

/-- The `ads_links` entry of a result dict, as a list (the value under that
key is always a `Val.list` by construction of `get_playlist_ids`). -/
def adsLinksOf (r : Row) : List Val :=
  match rowGet r "ads_links" Val.null with
  | Val.list vs => vs
  | _ => []

/-- The `estimates` entry of a result dict, as a list. -/
def estimatesOf (r : Row) : List Val :=
  match rowGet r "estimates" Val.null with
  | Val.list vs => vs
  | _ => []

/-- The ad-link list extracted by the comprehension has one entry per row. -/
theorem getAdLinks_length :
    ∀ {rs : List Row} {links : List Val},
      getAdLinks rs = some links → links.length = rs.length := by
  intro rs
  induction rs with
  | nil =>
    intro links h
    rw [getAdLinks] at h
    cases h
    rfl
  | cons r rest ih =>
    intro links h
    rw [getAdLinks] at h
    cases hf : rowFind r "ad link" with
    | none => rw [hf] at h; cases h
    | some v =>
      rw [hf] at h
      cases hg : getAdLinks rest with
      | none => rw [hg] at h; cases h
      | some vs =>
        rw [hg] at h
        cases h
        simp [ih hg]

/-! ## Claim theorems -/

/-- C1: for an identifier with no matching row in the metrics table and none
in the ads table (both queries return zero rows), `get_playlist_ids` returns
the fully degraded result: every metrics field (`track_count`, `Followers`,
`curator`, `playlist_name`, all five `estimates`, all ten `lssst` entries)
is the placeholder `"?"` and `ads_links` is exactly five empty strings.  The
embedded aggregator is a total function, so no exception is raised. -/
theorem c1_no_rows_all_placeholders (u : String) :
    (get_playlist_ids true (.rows []) (.rows []) u).1 =
      [("track_count", Val.s "?"),
       ("estimates", Val.list [Val.s "?", Val.s "?", Val.s "?", Val.s "?", Val.s "?"]),
       ("lssst", Val.list (List.replicate 10 (Val.s "?"))),
       ("Followers", Val.s "?"),
       ("curator", Val.s "?"),
       ("playlist_name", Val.s "?"),
       ("ads_links", Val.list (List.replicate 5 (Val.s "")))] := rfl

/-- C2: for every identifier and every per-table query outcome, the
aggregator returns a complete result dict with the seven fixed keys (it is a
total function of the outcomes, hence never raises), and an individual table
failure (the query raised, or returned zero rows) degrades to placeholders:
`"?"` for the metrics fields, five empty strings for `ads_links`. -/
theorem c2_failures_degrade_to_placeholders (u : String) (mo ao : QueryOutcome) :
    keysOf (get_playlist_ids true mo ao u).1 =
      ["track_count", "estimates", "lssst", "Followers", "curator",
       "playlist_name", "ads_links"] ∧
    ((mo = .err ∨ mo = .rows []) →
      rowGet (get_playlist_ids true mo ao u).1 "track_count" Val.null = Val.s "?" ∧
      rowGet (get_playlist_ids true mo ao u).1 "Followers" Val.null = Val.s "?" ∧
      rowGet (get_playlist_ids true mo ao u).1 "curator" Val.null = Val.s "?" ∧
      rowGet (get_playlist_ids true mo ao u).1 "playlist_name" Val.null = Val.s "?" ∧
      rowGet (get_playlist_ids true mo ao u).1 "estimates" Val.null =
        Val.list (List.replicate 5 (Val.s "?")) ∧
      rowGet (get_playlist_ids true mo ao u).1 "lssst" Val.null =
        Val.list (List.replicate 10 (Val.s "?"))) ∧
    ((ao = .err ∨ ao = .rows []) →
      rowGet (get_playlist_ids true mo ao u).1 "ads_links" Val.null =
        Val.list (List.replicate 5 (Val.s ""))) := by
  refine ⟨rfl, ?_, ?_⟩
  · rintro (rfl | rfl) <;> exact ⟨rfl, rfl, rfl, rfl, rfl, rfl⟩
  · rintro (rfl | rfl) <;> rfl

/-- C2 witness: at the concrete input where both queries raise, the keys are
the seven fixed ones and every field is the placeholder. -/
theorem c2_failures_degrade_to_placeholders_witness :
    keysOf (get_playlist_ids true .err .err "x").1 =
      ["track_count", "estimates", "lssst", "Followers", "curator",
       "playlist_name", "ads_links"] ∧
    rowGet (get_playlist_ids true .err .err "x").1 "track_count" Val.null = Val.s "?" ∧
    rowGet (get_playlist_ids true .err .err "x").1 "ads_links" Val.null =
      Val.list (List.replicate 5 (Val.s "")) :=
  ⟨(c2_failures_degrade_to_placeholders "x" .err .err).1,
   ((c2_failures_degrade_to_placeholders "x" .err .err).2.1 (Or.inl rfl)).1,
   (c2_failures_degrade_to_placeholders "x" .err .err).2.2 (Or.inl rfl)⟩

/-- C3: when the metrics query returns exactly one row `r`, every named
result field equals `r`'s value under the corresponding column when that
column is present (verbatim), and `"?"` otherwise — this is exactly
`rowGet r col (Val.s "?")`; the tier-bucket list `lssst` is the ten
per-column reads, hence has length exactly 10, with each absent column
individually defaulted to `"?"`. -/
theorem c3_single_row_fields_verbatim (u : String) (ao : QueryOutcome) (r : Row) :
    rowGet (get_playlist_ids true (.rows [r]) ao u).1 "track_count" Val.null =
      rowGet r "Track Count" (Val.s "?") ∧
    rowGet (get_playlist_ids true (.rows [r]) ao u).1 "Followers" Val.null =
      rowGet r "Followers" (Val.s "?") ∧
    rowGet (get_playlist_ids true (.rows [r]) ao u).1 "curator" Val.null =
      rowGet r "Curator" (Val.s "?") ∧
    rowGet (get_playlist_ids true (.rows [r]) ao u).1 "playlist_name" Val.null =
      rowGet r "Playlist" (Val.s "?") ∧
    rowGet (get_playlist_ids true (.rows [r]) ao u).1 "estimates" Val.null =
      Val.list [rowGet r "total_stream_estimate" (Val.s "?"),
                rowGet r "streams_april" (Val.s "?"),
                rowGet r "streams_march" (Val.s "?"),
                rowGet r "streams_feb" (Val.s "?"),
                rowGet r "streams_jan" (Val.s "?")] ∧
    rowGet (get_playlist_ids true (.rows [r]) ao u).1 "lssst" Val.null =
      Val.list (tierCols.map (fun col => rowGet r col (Val.s "?"))) ∧
    (tierCols.map (fun col => rowGet r col (Val.s "?"))).length = 10 := by
  cases r <;> exact ⟨rfl, rfl, rfl, rfl, rfl, rfl, rfl⟩

/-- C4: whatever number of rows (0 through 5, the query's row cap) the ads
query returns, the `ads_links` list in the result has length exactly 5,
because the code pads with empty strings up to 5. -/
theorem c4_ads_links_length_five (u : String) (mo : QueryOutcome) (rs : List Row)
    (h : rs.length ≤ 5) :
    (adsLinksOf (get_playlist_ids true mo (.rows rs) u).1).length = 5 := by
  cases hg : getAdLinks rs with
  | none =>
    simp [get_playlist_ids, adsLinksOf, fetch_data2, hg, adsEntry,
          resultsGet, rowGet, rowFind]
  | some links =>
    have hl : links.length = rs.length := getAdLinks_length hg
    by_cases hpos : links.length > 0
    · simp [get_playlist_ids, adsLinksOf, fetch_data2, hg, hpos, adsEntry,
            resultsGet, rowGet, rowFind]
      omega
    · simp [get_playlist_ids, adsLinksOf, fetch_data2, hg, hpos, adsEntry,
            resultsGet, rowGet, rowFind]

/-- C4 witness: one ads row gives an `ads_links` of length 5. -/
theorem c4_ads_links_length_five_witness :
    [[(("ad link" : String), Val.s "http://ad")]].length ≤ 5 ∧
    (adsLinksOf (get_playlist_ids true (.rows []) (.rows [[("ad link", Val.s "http://ad")]])
        "x").1).length = 5 :=
  ⟨by decide,
   c4_ads_links_length_five "x" (.rows []) [[("ad link", Val.s "http://ad")]] (by decide)⟩

/-- C5 counterexample: the claim says a request made while the store client
is uninitialized fails closed with a "not initialized" error; in the code,
`client.query` raises `AttributeError`, `fetch_data`/`fetch_data2` catch it
and return `None`, and the handler returns HTTP 200 with a "success"
envelope (placeholder data), never any "not initialized" message. -/
theorem c5_uninitialized_counterexample :
    (api_get_playlist_ids false (.rows []) (.rows [])
        (some [("playlist_url", Val.s "https://open.spotify.com/playlist/ABC")])).1 = 200 ∧
    rowGet (api_get_playlist_ids false (.rows []) (.rows [])
        (some [("playlist_url", Val.s "https://open.spotify.com/playlist/ABC")])).2.1
      "status" Val.null = Val.s "success" :=
  ⟨rfl, rfl⟩

/-- C5 amended: when the store client failed to initialize, every request to
`/get_playlist_ids` carrying a string `playlist_url` still returns HTTP 200
with a "success" envelope whose data is the fully degraded placeholder
result ("?" metrics, five empty ad links); no store query is issued, and no
"not initialized" error is produced. -/
theorem c5_amended_uninitialized_placeholder_success
    (u : String) (mo ao : QueryOutcome) :
    api_get_playlist_ids false mo ao (some [("playlist_url", Val.s u)]) =
      (200, [("status", Val.s "success"),
             ("data", Val.dict
               [("track_count", Val.s "?"),
                ("estimates", Val.list [Val.s "?", Val.s "?", Val.s "?", Val.s "?", Val.s "?"]),
                ("lssst", Val.list (List.replicate 10 (Val.s "?"))),
                ("Followers", Val.s "?"),
                ("curator", Val.s "?"),
                ("playlist_name", Val.s "?"),
                ("ads_links", Val.list (List.replicate 5 (Val.s "")))])], []) := rfl

/-- C6 counterexample: the empty URL already refutes "the extracted
identifier is non-empty for every input string" — the extractor maps it to
the empty identifier (so does the bare marker itself). -/
theorem c6_empty_input_counterexample : extract "" = "" := rfl

/-- C6 amended: the extracted identifier is non-empty for every input URL
whose segment before the first `?` is not a concatenation of zero or more
copies of the literal marker `https://open.spotify.com/playlist/` (the
all-occurrence deletion erases exactly such segments to nothing). -/
theorem c6_amended_nonempty_unless_marker_repetition (u : String)
    (h : isRepOf playlistMarker.toList
      (u.toList.takeWhile (fun c => c != '?')) = false) :
    extract u ≠ "" := by
  intro he
  have hl : pyReplaceDel playlistMarker.toList
      (u.toList.takeWhile (fun c => c != '?')) = [] :=
    congrArg String.toList he
  have ht := isRepOf_of_pyReplaceDel_nil (p := playlistMarker.toList) rfl hl
  rw [ht] at h
  cases h

/-- C6 witness: a plain identifier is not a marker repetition and extracts
to a non-empty string. -/
theorem c6_amended_nonempty_witness :
    isRepOf playlistMarker.toList
      ("abc".toList.takeWhile (fun c => c != '?')) = false ∧
    extract "abc" ≠ "" :=
  ⟨by decide, c6_amended_nonempty_unless_marker_repetition "abc" (by decide)⟩

/-- C7 counterexample: the code does not "remove the literal prefix if
present" — Python's `str.replace` deletes every occurrence of the marker
anywhere in the segment.  On a URL whose segment is the marker twice
followed by `X`, the code yields `X` while the spec-worded algorithm
(`extract_specAlg`: strip one leading occurrence) yields the marker
followed by `X`. -/
theorem c7_algorithm_counterexample :
    extract "https://open.spotify.com/playlist/https://open.spotify.com/playlist/X" = "X" ∧
    extract_specAlg
        "https://open.spotify.com/playlist/https://open.spotify.com/playlist/X" =
      "https://open.spotify.com/playlist/X" ∧
    extract "https://open.spotify.com/playlist/https://open.spotify.com/playlist/X" ≠
      extract_specAlg
        "https://open.spotify.com/playlist/https://open.spotify.com/playlist/X" :=
  ⟨rfl, rfl, by decide⟩

/-- C7 amended: both concrete examples hold, and the algorithm is: split on
the first `?`, keep the left segment, and remove every occurrence of the
literal string `https://open.spotify.com/playlist/` (not just a leading
one), as the third conjunct exhibits. -/
theorem c7_amended_examples_all_occurrences :
    extract "https://open.spotify.com/playlist/ABC123?si=xyz" = "ABC123" ∧
    extract "https://open.spotify.com/playlist/ABC123" = "ABC123" ∧
    extract "https://open.spotify.com/playlist/https://open.spotify.com/playlist/ABC123" =
      "ABC123" := by
  refine ⟨by decide, rfl, rfl⟩

/-- C8 counterexample: the extractor is not idempotent on every URL.
Deleting an inner occurrence of the marker can splice the surrounding text
into a fresh occurrence: on
`htt` ++ marker ++ `ps://open.spotify.com/playlist/X` the first application
yields marker ++ `X`, and a second application strips it again to `X`. -/
theorem c8_idempotence_counterexample :
    extract (extract
        "htthttps://open.spotify.com/playlist/ps://open.spotify.com/playlist/X") ≠
      extract
        "htthttps://open.spotify.com/playlist/ps://open.spotify.com/playlist/X" := by
  decide

/-- C8 amended: an already-bare identifier (no `?` character, no occurrence
of the marker) is returned unchanged; and the extractor is idempotent on
every URL whose once-extracted identifier contains no occurrence of the
marker (the unconditional consequence fails, see the counterexample). -/
theorem c8_amended_bare_unchanged_and_conditional_idempotence :
    (∀ s : String, s.toList.all (fun c => c != '?') = true →
      hasOccur playlistMarker.toList s.toList = false → extract s = s) ∧
    (∀ u : String, hasOccur playlistMarker.toList (extract u).toList = false →
      extract (extract u) = extract u) := by
  constructor
  · intro s hq ho
    unfold extract
    have ht : s.toList.takeWhile (fun c => c != '?') = s.toList :=
      List.takeWhile_eq_self_iff.mpr (by simpa [List.all_eq_true] using hq)
    rw [ht, pyReplaceDel_of_not_occur ho]
    exact stringMk_toList s
  · intro u ho
    have ht : (extract u).toList.takeWhile (fun c => c != '?') = (extract u).toList :=
      List.takeWhile_eq_self_iff.mpr (fun a ha => extract_no_questionmark ha)
    show String.mk (pyReplaceDel playlistMarker.toList
      ((extract u).toList.takeWhile (fun c => c != '?'))) = extract u
    rw [ht, pyReplaceDel_of_not_occur ho]
    exact stringMk_toList _

/-- C8 witness: a bare identifier is returned unchanged, and a URL whose
extracted identifier is marker-free is a fixed point of a second
application. -/
theorem c8_amended_witness :
    extract "ABC" = "ABC" ∧
    extract (extract "https://open.spotify.com/playlist/ABC") =
      extract "https://open.spotify.com/playlist/ABC" :=
  ⟨c8_amended_bare_unchanged_and_conditional_idempotence.1 "ABC" (by decide) (by decide),
   c8_amended_bare_unchanged_and_conditional_idempotence.2
     "https://open.spotify.com/playlist/ABC" (by decide)⟩

/-- C9: a POST whose JSON body is absent/empty or lacks `playlist_url` gets
the error envelope with HTTP 400, and no store query is issued (the trace of
issued queries is empty — the handler returns before either fetch runs). -/
theorem c9_missing_field_400_no_query (cp : Bool) (mo ao : QueryOutcome)
    (body : Option Row)
    (h : body = none ∨
      ∃ d, body = some d ∧ (d.isEmpty = true ∨ rowFind d "playlist_url" = none)) :
    api_get_playlist_ids cp mo ao body =
      (400, [("status", Val.s "error"),
             ("message", Val.s "Missing 'playlist_url' in request.")], []) := by
  rcases h with rfl | ⟨d, rfl, hd | hd⟩
  · rfl
  · simp [api_get_playlist_ids, hd]
  · simp [api_get_playlist_ids, hd]

/-- C9 witness: the empty JSON dict gets 400, the error envelope, and an
empty query trace. -/
theorem c9_missing_field_400_no_query_witness :
    api_get_playlist_ids true (.rows []) (.rows []) (some []) =
      (400, [("status", Val.s "error"),
             ("message", Val.s "Missing 'playlist_url' in request.")], []) :=
  c9_missing_field_400_no_query true (.rows []) (.rows []) (some [])
    (Or.inr ⟨[], rfl, Or.inl rfl⟩)

/-- C10: for every input string, client state and per-table outcome, the
result dict has exactly the seven keys `track_count`, `estimates`, `lssst`,
`Followers`, `curator`, `playlist_name`, `ads_links`, in that order, and the
`estimates` list has length exactly 5. -/
theorem c10_result_shape (cp : Bool) (mo ao : QueryOutcome) (u : String) :
    keysOf (get_playlist_ids cp mo ao u).1 =
      ["track_count", "estimates", "lssst", "Followers", "curator",
       "playlist_name", "ads_links"] ∧
    (estimatesOf (get_playlist_ids cp mo ao u).1).length = 5 :=
  ⟨rfl, rfl⟩

end GetStreamsApi
